import Mathlib

/-!
Verification of the engagement-monitoring backend
(`backend/engagement_classifier`, `backend/services`, `backend/websocket`,
`backend/zoom_integrator`) against its natural-language specification.

The Python code is shallowly embedded: pure functions become Lean
functions; dict/set state becomes association lists with explicit unique
keys; SQLAlchemy queries over the `engagement_logs` table become list
operations over a list of `EngagementLog` records; fallible operations
(Python exceptions) return `Except String`.
-/

namespace Engagement

/-- `models.EngagementLevel` (database/models.py): ACTIVE / MODERATE / PASSIVE. -/
inductive EngagementLevel where
  | ACTIVE
  | MODERATE
  | PASSIVE
deriving DecidableEq, Repr

/-- `models.SessionStatus` (database/models.py): PENDING / ACTIVE / ENDED. -/
inductive SessionStatus where
  | PENDING
  | ACTIVE
  | ENDED
deriving DecidableEq, Repr

/-- `EngagementClassifier._classify_with_rules` (engagement_classifier/classifier.py,
lines 54-79): `if response_time_ms < 4000 and is_correct: ACTIVE;
if response_time_ms > 7000 or not is_correct: PASSIVE; else MODERATE`.
Latency is a non-negative integer, hence `Nat`. -/
def classify_with_rules (response_time_ms : Nat) (is_correct : Bool) : EngagementLevel :=
  if response_time_ms < 4000 ∧ is_correct = true then .ACTIVE
  else if response_time_ms > 7000 ∨ is_correct = false then .PASSIVE
  else .MODERATE

/-- A row of the `engagement_logs` table (`models.EngagementLog`):
student, session, tier and timestamp (time as `Nat`). -/
structure EngagementLog where
  student_id : Nat
  session_id : Nat
  engagement_level : EngagementLevel
  timestamp : Nat
deriving DecidableEq, Repr

/-- One step of taking the row of maximal `timestamp`: embeds the SQL
`ORDER BY timestamp DESC ... first()` of
`EngagementService.get_current_engagement`; an earlier row is kept on a
timestamp tie. -/
def max_by_timestamp (acc : Option EngagementLog) (l : EngagementLog) : Option EngagementLog :=
  match acc with
  | none => some l
  | some best => if best.timestamp < l.timestamp then some l else some best

/-- The filtered-and-ordered query of
`EngagementService.get_current_engagement` (services/engagement_service.py,
lines 93-99): rows of the given student and session, row with the latest
timestamp (or `none` when no row matches). -/
def query_latest (logs : List EngagementLog) (student_id session_id : Nat) :
    Option EngagementLog :=
  (logs.filter fun l => l.student_id == student_id && l.session_id == session_id).foldl
    max_by_timestamp none

/-- `EngagementService.get_current_engagement` (services/engagement_service.py,
lines 76-101): tier of the latest log for the (student, session) pair, or
`none` (Python `None`) when no log exists. -/
def get_current_engagement (logs : List EngagementLog) (student_id session_id : Nat) :
    Option EngagementLevel :=
  (query_latest logs student_id session_id).map (·.engagement_level)

/-! ### Association-list embedding of Python dicts (insertion-ordered, unique keys) -/

/-- Python `d.get(k)` / `d[k]` lookup on an insertion-ordered dict. -/
def alist_lookup {α : Type} : List (Nat × α) → Nat → Option α
  | [], _ => none
  | (k, v) :: rest, key => if k == key then some v else alist_lookup rest key

/-- Python `d[k] = v`: update in place when the key exists, append otherwise. -/
def alist_set {α : Type} : List (Nat × α) → Nat → α → List (Nat × α)
  | [], key, v => [(key, v)]
  | (k, w) :: rest, key, v =>
    if k == key then (key, v) :: rest else (k, w) :: alist_set rest key v

/-- Python `del d[k]` on a unique-key dict, as remove-if-present. -/
def alist_erase {α : Type} : List (Nat × α) → Nat → List (Nat × α)
  | [], _ => []
  | (k, v) :: rest, key => if k == key then rest else (k, v) :: alist_erase rest key

/-- Apply `f` to the value stored under `key`, when present. -/
def alist_update {α : Type} (f : α → α) : List (Nat × α) → Nat → List (Nat × α)
  | [], _ => []
  | (k, v) :: rest, key =>
    if k == key then (k, f v) :: rest else (k, v) :: alist_update f rest key

/-- The shared `connect` pattern of both websocket managers
(`if key not in d: d[key] = set()` then `d[key].add(ws)`); a Python set is
embedded as a duplicate-free list. -/
def dict_add_to_set (d : List (Nat × List Nat)) (key ws : Nat) : List (Nat × List Nat) :=
  match alist_lookup d key with
  | none => d ++ [(key, [ws])]
  | some _ => alist_update (fun conns => if ws ∈ conns then conns else conns ++ [ws]) d key

/-! ### Adaptive engine (services/adaptive_engine.py) -/

/-- `AdaptiveEngine._should_deliver_question` (adaptive_engine.py, lines
166-211): `None` (no engagement data) → deliver; PASSIVE → deliver;
MODERATE → deliver; ACTIVE → do not deliver. -/
def should_deliver_question (engagement : Option EngagementLevel) : Bool :=
  match engagement with
  | none => true
  | some .PASSIVE => true
  | some .MODERATE => true
  | some .ACTIVE => false

/-- `AdaptiveEngine._identify_students_needing_questions` (adaptive_engine.py,
lines 133-164) with a healthy database: for each student of the roster, read
the current engagement and keep the student when
`_should_deliver_question` says so. -/
def identify_students_needing_questions (logs : List EngagementLog) (session_id : Nat)
    (student_ids : List Nat) : List Nat :=
  student_ids.filter fun sid =>
    should_deliver_question (get_current_engagement logs sid session_id)

/-- `_identify_students_needing_questions` with a fallible store:
`eng student_id session_id` is the `get_current_engagement` read, which may
raise (e.g. a store read error). The first raised error aborts the whole
identification, as an uncaught Python exception does. -/
def identify_students_E (eng : Nat → Nat → Except String (Option EngagementLevel))
    (session_id : Nat) : List Nat → Except String (List Nat)
  | [] => .ok []
  | sid :: rest =>
    match eng sid session_id with
    | .error e => .error e
    | .ok t =>
      match identify_students_E eng session_id rest with
      | .error e => .error e
      | .ok ns => .ok (if should_deliver_question t then sid :: ns else ns)

/-- The session loop inside `AdaptiveEngine._monitor_engagement`
(adaptive_engine.py, lines 117-129). The `try` of the source wraps the WHOLE
`for` loop: dispatches made before an error stand (`acc`), the error is
caught and logged, and the remaining sessions of the tick are not processed.
A session with an empty delivery set is not dispatched. -/
def monitor_loop (eng : Nat → Nat → Except String (Option EngagementLevel)) :
    List (Nat × List Nat) → List (Nat × List Nat) → List (Nat × List Nat)
  | [], acc => acc
  | (sid, students) :: rest, acc =>
    match identify_students_E eng sid students with
    | .error _ => acc
    | .ok ns => monitor_loop eng rest (if ns.isEmpty then acc else acc ++ [(sid, ns)])

/-- The body of one tick of `AdaptiveEngine._monitor_engagement` once the
collaborators are wired: the list of `(session_id, student_ids)` dispatches
handed to `question_push_callback`, in order. -/
def run_monitor (eng : Nat → Nat → Except String (Option EngagementLevel))
    (sessions : List (Nat × List Nat)) : List (Nat × List Nat) :=
  monitor_loop eng sessions []

/-- The engagement read performed through a healthy database session:
`get_current_engagement` over a fixed log, never raising. -/
def engOf (logs : List EngagementLog) :
    Nat → Nat → Except String (Option EngagementLevel) :=
  fun student_id session_id => .ok (get_current_engagement logs student_id session_id)

/-- One healthy tick of the monitor over the `active_sessions` map, reading
tiers from `logs`. -/
def monitorTick (logs : List EngagementLog) (sessions : List (Nat × List Nat)) :
    List (Nat × List Nat) :=
  run_monitor (engOf logs) sessions

/-- `AdaptiveEngine` state (adaptive_engine.py, lines 22-28):
`active_sessions` is the session → roster dict; the two collaborators set by
`initialize` are `None` until wired — the database session factory is
embedded as the engagement-read function a fresh database session provides. -/
structure AdaptiveEngine where
  active_sessions : List (Nat × List Nat)
  db_session_factory : Option (Nat → Nat → Except String (Option EngagementLevel))
  question_push_callback : Option Unit
  running : Bool

/-- `AdaptiveEngine.start` (adaptive_engine.py, lines 46-62): when already
running, log a warning and return; otherwise schedule the monitoring job and
set `_running`. The collaborators are never checked and no exception is
raised, hence the result is always `.ok`. -/
def engine_start (e : AdaptiveEngine) : Except String AdaptiveEngine :=
  if e.running then .ok e
  else .ok { e with running := true }

/-- `AdaptiveEngine._monitor_engagement` (adaptive_engine.py, lines 106-131):
when a collaborator is missing the tick logs
"Adaptive engine not properly initialized" and returns with no dispatch;
otherwise it runs the session loop. Returns the dispatches of the tick. -/
def monitor_engagement (e : AdaptiveEngine) : List (Nat × List Nat) :=
  match e.db_session_factory, e.question_push_callback with
  | some eng, some _ => run_monitor eng e.active_sessions
  | _, _ => []

/-- `AdaptiveEngine.add_session` (adaptive_engine.py, lines 73-82):
`self.active_sessions[session_id] = student_ids`. -/
def add_session (sessions : List (Nat × List Nat)) (session_id : Nat)
    (student_ids : List Nat) : List (Nat × List Nat) :=
  alist_set sessions session_id student_ids

/-- `AdaptiveEngine.remove_session` (adaptive_engine.py, lines 84-93):
`if session_id in self.active_sessions: del self.active_sessions[session_id]`. -/
def remove_session (sessions : List (Nat × List Nat)) (session_id : Nat) :
    List (Nat × List Nat) :=
  alist_erase sessions session_id

/-! ### Student websocket registry (websocket/student_ws.py)

Websocket channels are embedded as `Nat` identifiers. A send on a channel
may fail; the failure behaviour of the transport is a parameter
`fails : Nat → Bool`. A send function returns the list of
`(channel, delivered?)` attempts it made; every `try/except` around a send
is total, so no embedded send raises. -/

/-- `StudentWebSocketManager` state (student_ws.py, lines 18-20):
`active_connections : session_id → set of websockets` and
`student_sessions : websocket → student_id`. -/
structure StudentWSManager where
  active_connections : List (Nat × List Nat)
  student_sessions : List (Nat × Nat)
deriving DecidableEq, Repr

/-- `StudentWebSocketManager.connect` (student_ws.py, lines 22-40): add the
channel to the session's set and map the channel to the student. -/
def student_connect (m : StudentWSManager) (ws session_id student_id : Nat) :
    StudentWSManager :=
  { active_connections := dict_add_to_set m.active_connections session_id ws
    student_sessions := alist_set m.student_sessions ws student_id }

/-- The `for session_id, connections in ...: if websocket in connections:
connections.remove(websocket); break` loop of
`StudentWebSocketManager.disconnect`: remove the channel from the FIRST
session set containing it only. -/
def remove_from_first_set (ws : Nat) : List (Nat × List Nat) → List (Nat × List Nat)
  | [] => []
  | (sid, conns) :: rest =>
    if ws ∈ conns then (sid, conns.erase ws) :: rest
    else (sid, conns) :: remove_from_first_set ws rest

/-- `StudentWebSocketManager.disconnect` (student_ws.py, lines 42-60): remove
the channel from the first session set containing it, then delete it from
`student_sessions` if present. Never raises. -/
def student_disconnect (m : StudentWSManager) (ws : Nat) : StudentWSManager :=
  { active_connections := remove_from_first_set ws m.active_connections
    student_sessions := alist_erase m.student_sessions ws }

/-- `StudentWebSocketManager.send_question_to_student` (student_ws.py, lines
62-90): when the session has a connection set, scan `student_sessions` in
insertion order for the FIRST channel of the student that is in the
session's set, and attempt the send on that single channel (a send error is
caught and logged). Returns the attempts made. -/
def send_question_to_student (m : StudentWSManager) (session_id student_id : Nat)
    (fails : Nat → Bool) : List (Nat × Bool) :=
  match alist_lookup m.active_connections session_id with
  | none => []
  | some conns =>
    match m.student_sessions.find? (fun p => p.2 == student_id && conns.contains p.1) with
    | some p => [(p.1, !fails p.1)]
    | none => []

/-! ### Instructor websocket registry (websocket/instructor_ws.py) -/

/-- `InstructorWebSocketManager` state (instructor_ws.py, lines 17-19):
`active_connections : instructor_id → set of websockets` and
`instructor_sessions : websocket → instructor_id`. -/
structure InstructorWSManager where
  active_connections : List (Nat × List Nat)
  instructor_sessions : List (Nat × Nat)
deriving DecidableEq, Repr

/-- `InstructorWebSocketManager.connect` (instructor_ws.py, lines 21-37). -/
def instructor_connect (m : InstructorWSManager) (ws instructor_id : Nat) :
    InstructorWSManager :=
  { active_connections := dict_add_to_set m.active_connections instructor_id ws
    instructor_sessions := alist_set m.instructor_sessions ws instructor_id }

/-- `InstructorWebSocketManager.disconnect` (instructor_ws.py, lines 39-53):
`instructor_id = self.instructor_sessions.get(websocket)`; then
`if instructor_id and instructor_id in self.active_connections:
self.active_connections[instructor_id].remove(websocket)` — note the
truthiness test: instructor id 0 skips the removal exactly like `None`.
`set.remove` raises `KeyError` when the element is absent, embedded as
`.error`. Finally the channel is deleted from `instructor_sessions`. -/
def instructor_disconnect (m : InstructorWSManager) (ws : Nat) :
    Except String InstructorWSManager :=
  match alist_lookup m.instructor_sessions ws with
  | none => .ok { m with instructor_sessions := alist_erase m.instructor_sessions ws }
  | some iid =>
    if iid ≠ 0 then
      match alist_lookup m.active_connections iid with
      | some conns =>
        if ws ∈ conns then
          .ok { active_connections :=
                  alist_update (fun cs => cs.erase ws) m.active_connections iid
                instructor_sessions := alist_erase m.instructor_sessions ws }
        else .error "KeyError"
      | none => .ok { m with instructor_sessions := alist_erase m.instructor_sessions ws }
    else .ok { m with instructor_sessions := alist_erase m.instructor_sessions ws }

/-- `InstructorWebSocketManager.send_dashboard_update` (instructor_ws.py,
lines 55-72): when the instructor has a connection set, attempt the send on
EVERY channel of the set, each send wrapped in its own `try/except`.
Returns the `(channel, delivered?)` attempts. -/
def send_dashboard_update (m : InstructorWSManager) (instructor_id : Nat)
    (fails : Nat → Bool) : List (Nat × Bool) :=
  match alist_lookup m.active_connections instructor_id with
  | none => []
  | some conns => conns.map fun ws => (ws, !fails ws)

/-! ### Session manager (zoom_integrator/session_manager.py) -/

/-- A row of the `sessions` table (`models.Session`), time as `Nat`. -/
structure SessionRecord where
  id : Nat
  instructor_id : Nat
  status : SessionStatus
  start_time : Option Nat
  end_time : Option Nat
  zoom_meeting_id : Option String
deriving DecidableEq, Repr

/-- The `db.query(models.Session).filter(models.Session.id == session_id).first()`
lookup of the session manager. -/
def find_session (db : List SessionRecord) (session_id : Nat) : Option SessionRecord :=
  db.find? fun s => s.id == session_id

/-- The database plus the adaptive engine's session map, the state
`SessionManager.start_session` / `stop_session` read and write. -/
structure ManagerState where
  db : List SessionRecord
  engine_sessions : List (Nat × List Nat)
deriving DecidableEq, Repr

/-- `SessionManager.start_session` (zoom_integrator/session_manager.py, lines
54-83): raise `ValueError` when the session id is unknown; otherwise set
`session.status = ACTIVE` — with NO check of the current status — commit,
and register the roster with the adaptive engine. (The external Zoom
monitoring side effect is outside the embedded state.) -/
def start_session (st : ManagerState) (session_id : Nat) (student_ids : List Nat) :
    Except String ManagerState :=
  match find_session st.db session_id with
  | none => .error ("Session " ++ toString session_id ++ " not found")
  | some _ =>
    .ok { db := st.db.map fun s =>
            if s.id = session_id then { s with status := .ACTIVE } else s
          engine_sessions := add_session st.engine_sessions session_id student_ids }

/-- `SessionManager.stop_session` (zoom_integrator/session_manager.py, lines
85-109): raise `ValueError` when the session id is unknown; otherwise set
`session.status = ENDED`, `session.end_time = datetime.utcnow()` (`now`) —
with NO check of the current status — commit, and remove the session from
the adaptive engine. -/
def stop_session (st : ManagerState) (now : Nat) (session_id : Nat) :
    Except String ManagerState :=
  match find_session st.db session_id with
  | none => .error ("Session " ++ toString session_id ++ " not found")
  | some _ =>
    .ok { db := st.db.map fun s =>
            if s.id = session_id then { s with status := .ENDED, end_time := some now }
            else s
          engine_sessions := remove_session st.engine_sessions session_id }

/-! ## Theorems -/

/-- C2: for every non-negative latency and correctness flag, the rules
classifier returns ACTIVE iff `latency < 4000 ∧ correct`, PASSIVE iff
`(latency > 7000 ∨ incorrect) ∧ ¬(latency < 4000 ∧ correct)`, and MODERATE
otherwise; at the boundaries, latency 4000 with correct answers MODERATE,
and latency exactly 7000 with correct answers MODERATE (not PASSIVE by the
latency clause alone). -/
theorem C2_classify_rules (t : Nat) (c : Bool) :
    (classify_with_rules t c = .ACTIVE ↔ t < 4000 ∧ c = true) ∧
    (classify_with_rules t c = .PASSIVE ↔
      (t > 7000 ∨ c = false) ∧ ¬(t < 4000 ∧ c = true)) ∧
    (classify_with_rules t c = .MODERATE ↔
      ¬(t < 4000 ∧ c = true) ∧ ¬(t > 7000 ∨ c = false)) ∧
    classify_with_rules 4000 true = .MODERATE ∧
    classify_with_rules 7000 true = .MODERATE := by
  refine ⟨?_, ?_, ?_, by decide, by decide⟩ <;>
    · unfold classify_with_rules
      split_ifs with h1 h2 <;> simp_all

/-- Result of folding `max_by_timestamp` is the accumulator or a list element. -/
theorem foldl_max_mem :
    ∀ (fl : List EngagementLog) (acc : Option EngagementLog) (r : EngagementLog),
      fl.foldl max_by_timestamp acc = some r → acc = some r ∨ r ∈ fl := by
  intro fl
  induction fl with
  | nil => intro acc r h; exact Or.inl h
  | cons l rest ih =>
    intro acc r h
    rcases ih (max_by_timestamp acc l) r h with h' | h'
    · rcases acc with _ | best
      · simp only [max_by_timestamp] at h'
        right; simp_all
      · simp only [max_by_timestamp] at h'
        split_ifs at h' <;> simp_all
    · right; exact List.mem_cons_of_mem l h'

/-- Result of folding `max_by_timestamp` dominates the accumulator and every
list element in timestamp. -/
theorem foldl_max_ge :
    ∀ (fl : List EngagementLog) (acc : Option EngagementLog) (r : EngagementLog),
      fl.foldl max_by_timestamp acc = some r →
        (∀ b, acc = some b → b.timestamp ≤ r.timestamp) ∧
        ∀ l ∈ fl, l.timestamp ≤ r.timestamp := by
  intro fl
  induction fl with
  | nil =>
    intro acc r h
    refine ⟨fun b hb => ?_, by simp⟩
    rw [hb] at h; cases h; exact Nat.le_refl _
  | cons l rest ih =>
    intro acc r h
    obtain ⟨hacc, hrest⟩ := ih (max_by_timestamp acc l) r h
    have hl : l.timestamp ≤ r.timestamp := by
      rcases acc with _ | best
      · exact hacc l rfl
      · by_cases hlt : best.timestamp < l.timestamp
        · exact hacc l (by simp [max_by_timestamp, hlt])
        · have := hacc best (by simp [max_by_timestamp, hlt])
          omega
    refine ⟨fun b hb => ?_, ?_⟩
    · rcases acc with _ | best
      · cases hb
      · cases hb
        by_cases hlt : b.timestamp < l.timestamp
        · have := hacc l (by simp [max_by_timestamp, hlt])
          omega
        · exact hacc b (by simp [max_by_timestamp, hlt])
    · intro x hx
      rcases List.mem_cons.mp hx with rfl | hx'
      · exact hl
      · exact hrest x hx'

/-- Folding `max_by_timestamp` yields `none` only from an empty fold. -/
theorem foldl_max_none :
    ∀ (fl : List EngagementLog) (acc : Option EngagementLog),
      fl.foldl max_by_timestamp acc = none → acc = none ∧ fl = [] := by
  intro fl
  induction fl with
  | nil => intro acc h; exact ⟨h, rfl⟩
  | cons l rest ih =>
    intro acc h
    obtain ⟨hacc, _⟩ := ih (max_by_timestamp acc l) h
    rcases acc with _ | best
    · simp only [max_by_timestamp] at hacc
      cases hacc
    · simp only [max_by_timestamp] at hacc
      split_ifs at hacc

/-- C3: `get_current_engagement` returns `none` (absent) when no engagement
log exists for the (student, session) pair, and otherwise returns the tier
of the log with the latest `timestamp`, regardless of how many earlier logs
exist; the absent result is distinct from every tier. -/
theorem C3_current_tier (logs : List EngagementLog) (student_id session_id : Nat) :
    ((∀ l ∈ logs, ¬(l.student_id = student_id ∧ l.session_id = session_id)) →
       get_current_engagement logs student_id session_id = none) ∧
    (∀ e ∈ logs, e.student_id = student_id → e.session_id = session_id →
       (∀ l ∈ logs, l.student_id = student_id → l.session_id = session_id →
          l ≠ e → l.timestamp < e.timestamp) →
       get_current_engagement logs student_id session_id = some e.engagement_level) ∧
    (∀ lvl : EngagementLevel,
       get_current_engagement logs student_id session_id = none →
         get_current_engagement logs student_id session_id ≠ some lvl) := by
  refine ⟨?_, ?_, ?_⟩
  · intro hnone
    have hfil : logs.filter
        (fun l => l.student_id == student_id && l.session_id == session_id) = [] := by
      rw [List.filter_eq_nil_iff]
      intro l hl
      have := hnone l hl
      simp only [Bool.and_eq_true, beq_iff_eq]
      tauto
    unfold get_current_engagement query_latest
    rw [hfil]
    rfl
  · intro e he hst hse hmax
    have hef : e ∈ logs.filter
        (fun l => l.student_id == student_id && l.session_id == session_id) := by
      rw [List.mem_filter]
      exact ⟨he, by simp [hst, hse]⟩
    rcases hq : (logs.filter
        (fun l => l.student_id == student_id && l.session_id == session_id)).foldl
        max_by_timestamp none with _ | r
    · obtain ⟨_, hnil⟩ := foldl_max_none _ _ hq
      rw [hnil] at hef; cases hef
    · have hrmem : r ∈ logs.filter
          (fun l => l.student_id == student_id && l.session_id == session_id) := by
        rcases foldl_max_mem _ _ _ hq with h | h
        · cases h
        · exact h
      have hge := (foldl_max_ge _ _ _ hq).2 e hef
      obtain ⟨hrl, hrp⟩ := List.mem_filter.mp hrmem
      simp only [Bool.and_eq_true, beq_iff_eq] at hrp
      have hre : r = e := by
        by_contra hne
        have := hmax r hrl hrp.1 hrp.2 hne
        omega
      unfold get_current_engagement query_latest
      rw [hq, hre]
      rfl
  · intro lvl h h'
    rw [h] at h'
    cases h'

/-- Witness for C3: a two-event log for student 1 in session 2 whose later
event is PASSIVE yields PASSIVE, and a student with no events is absent. -/
theorem C3_current_tier_witness :
    get_current_engagement
        [⟨1, 2, .ACTIVE, 5⟩, ⟨1, 2, .PASSIVE, 9⟩] 1 2 = some .PASSIVE ∧
    get_current_engagement
        [⟨1, 2, .ACTIVE, 5⟩, ⟨1, 2, .PASSIVE, 9⟩] 3 2 = none :=
  ⟨(C3_current_tier [⟨1, 2, .ACTIVE, 5⟩, ⟨1, 2, .PASSIVE, 9⟩] 1 2).2.1
      ⟨1, 2, .PASSIVE, 9⟩ (by decide) rfl rfl (by decide),
   (C3_current_tier [⟨1, 2, .ACTIVE, 5⟩, ⟨1, 2, .PASSIVE, 9⟩] 3 2).1 (by decide)⟩

/-- The delivery predicate holds exactly on the absent, PASSIVE and MODERATE
tiers. -/
theorem should_deliver_iff (t : Option EngagementLevel) :
    should_deliver_question t = true ↔
      t = none ∨ t = some .PASSIVE ∨ t = some .MODERATE := by
  rcases t with _ | lvl
  · simp [should_deliver_question]
  · cases lvl <;> simp [should_deliver_question]

/-- With a healthy store, the fallible identification agrees with the pure
one. -/
theorem identify_E_engOf (logs : List EngagementLog) (session_id : Nat)
    (roster : List Nat) :
    identify_students_E (engOf logs) session_id roster =
      .ok (identify_students_needing_questions logs session_id roster) := by
  induction roster with
  | nil => rfl
  | cons sid rest ih =>
    simp only [identify_students_E, engOf, ih,
      identify_students_needing_questions, List.filter_cons]

/-- With a healthy store, the tick loop appends one dispatch per session with
a non-empty delivery set, in session order, to the dispatches already made. -/
theorem monitor_loop_engOf (logs : List EngagementLog) :
    ∀ (sessions acc : List (Nat × List Nat)),
      monitor_loop (engOf logs) sessions acc =
        acc ++ ((sessions.map fun p =>
          (p.1, identify_students_needing_questions logs p.1 p.2)).filter
            fun p => !p.2.isEmpty) := by
  intro sessions
  induction sessions with
  | nil => intro acc; simp [monitor_loop]
  | cons s rest ih =>
    intro acc
    obtain ⟨sid, students⟩ := s
    simp only [monitor_loop, identify_E_engOf, List.map_cons, List.filter_cons]
    by_cases h : (identify_students_needing_questions logs sid students).isEmpty = true
    · simp [h, ih]
    · simp [h, ih]

/-- A dispatched session id of a tick is a key of the session map. -/
theorem monitorTick_key_mem (logs : List EngagementLog)
    (sessions : List (Nat × List Nat)) (session_id : Nat) (ds : List Nat) :
    (session_id, ds) ∈ monitorTick logs sessions → session_id ∈ sessions.map Prod.fst := by
  intro h
  unfold monitorTick run_monitor at h
  rw [monitor_loop_engOf] at h
  simp only [List.nil_append] at h
  have h' := List.mem_of_mem_filter h
  rw [List.mem_map] at h'
  obtain ⟨p, hp, heq⟩ := h'
  rw [List.mem_map]
  exact ⟨p, hp, by cases heq; rfl⟩

/-- After erasing a key from a unique-key association list, the key is gone. -/
theorem alist_erase_key_not_mem {α : Type} (key : Nat) :
    ∀ l : List (Nat × α), (l.map Prod.fst).Nodup →
      key ∉ (alist_erase l key).map Prod.fst := by
  intro l
  induction l with
  | nil => intro _ h; simp [alist_erase] at h
  | cons p rest ih =>
    intro hnd
    obtain ⟨k, v⟩ := p
    simp only [List.map_cons, List.nodup_cons] at hnd
    by_cases hk : k = key
    · subst hk
      simp only [alist_erase, beq_self_eq_true, if_pos]
      exact hnd.1
    · have hkb : (k == key) = false := by simp [hk]
      simp only [alist_erase, hkb, Bool.false_eq_true, if_false, List.map_cons,
        List.mem_cons]
      rintro (h | h)
      · exact hk h.symm
      · exact ih hnd.2 h

/-- C1: one tick of the adaptive monitor includes a student of a session's
roster in the delivery set iff the student's current tier is absent, PASSIVE
or MODERATE (so it excludes exactly the ACTIVE students); with roster
{1, 2} in session 42 and no events, the tick dispatches {1, 2}; after
student 1 is classified ACTIVE and student 2 PASSIVE, the tick dispatches
only {2}; and after a session is removed from the monitor's (unique-key)
session map, no tick produces a delivery set for it. -/
theorem C1_delivery_policy :
    (∀ (logs : List EngagementLog) (session_id : Nat) (roster : List Nat) (s : Nat),
       s ∈ identify_students_needing_questions logs session_id roster ↔
         s ∈ roster ∧
           (get_current_engagement logs s session_id = none ∨
            get_current_engagement logs s session_id = some .PASSIVE ∨
            get_current_engagement logs s session_id = some .MODERATE)) ∧
    monitorTick [] [(42, [1, 2])] = [(42, [1, 2])] ∧
    monitorTick [⟨1, 42, .ACTIVE, 10⟩, ⟨2, 42, .PASSIVE, 10⟩] [(42, [1, 2])]
      = [(42, [2])] ∧
    (∀ (logs : List EngagementLog) (sessions : List (Nat × List Nat))
       (session_id : Nat) (ds : List Nat),
       (sessions.map Prod.fst).Nodup →
         (session_id, ds) ∉ monitorTick logs (remove_session sessions session_id)) := by
  refine ⟨?_, by decide, by decide, ?_⟩
  · intro logs session_id roster s
    unfold identify_students_needing_questions
    rw [List.mem_filter, should_deliver_iff]
  · intro logs sessions session_id ds hnd hmem
    exact alist_erase_key_not_mem session_id sessions hnd
      (monitorTick_key_mem logs _ session_id ds hmem)

/-- Witness for C1: removing session 42 from the map {42 ↦ [1], 7 ↦ [3]}
keeps the next tick from dispatching (42, [1]). -/
theorem C1_delivery_policy_witness :
    (([(42, [1]), (7, [3])] : List (Nat × List Nat)).map Prod.fst).Nodup ∧
    (42, [1]) ∉ monitorTick [] (remove_session [(42, [1]), (7, [3])] 42) :=
  ⟨by decide, C1_delivery_policy.2.2.2 [] [(42, [1]), (7, [3])] 42 [1] (by decide)⟩

/-- An error while identifying one session's students ends the tick's
session loop: sessions after the failing one are not processed, whatever the
accumulated dispatches. -/
theorem monitor_loop_error_cut
    (eng : Nat → Nat → Except String (Option EngagementLevel))
    (sid : Nat) (students : List Nat) (msg : String)
    (herr : identify_students_E eng sid students = .error msg) :
    ∀ (pre : List (Nat × List Nat)) (post acc : List (Nat × List Nat)),
      monitor_loop eng (pre ++ (sid, students) :: post) acc =
        monitor_loop eng (pre ++ [(sid, students)]) acc := by
  intro pre
  induction pre with
  | nil =>
    intro post acc
    simp only [List.nil_append, monitor_loop, herr]
  | cons p rest ih =>
    intro post acc
    obtain ⟨k, v⟩ := p
    simp only [List.cons_append, monitor_loop]
    rcases hk : identify_students_E eng k v with e | ns
    · simp [hk]
    · simp only [hk]
      exact ih post _

/-- C4 (amended): an error raised while evaluating one session during a tick
is caught at the level of the whole tick (the tick terminates normally and
the dispatches already made stand), but it aborts the processing of every
session listed after the failing one in the same tick: the tick behaves as
if the session list ended at the failing session. -/
theorem C4_tick_error_aborts_rest
    (eng : Nat → Nat → Except String (Option EngagementLevel))
    (sid : Nat) (students : List Nat) (msg : String)
    (pre post : List (Nat × List Nat))
    (herr : identify_students_E eng sid students = .error msg) :
    run_monitor eng (pre ++ (sid, students) :: post) =
      run_monitor eng (pre ++ [(sid, students)]) :=
  monitor_loop_error_cut eng sid students msg herr pre post []

/-- A store whose engagement read raises for session 1 and returns no
engagement data elsewhere. -/
def engC4 : Nat → Nat → Except String (Option EngagementLevel) :=
  fun _ session_id => if session_id == 1 then .error "store read error" else .ok none

/-- Counterexample to C4 as stated: over the session list [1, 2] with a
store that errors only for session 1, the tick dispatches nothing at all,
although session 2 dispatches [20] when it is evaluated alone — the error in
session 1 prevented session 2's evaluation in the same tick. -/
theorem C4_counterexample :
    run_monitor engC4 [(1, [10]), (2, [20])] = [] ∧
    run_monitor engC4 [(2, [20])] = [(2, [20])] :=
  ⟨rfl, rfl⟩

/-- Witness for C4: with the failing session 1 first, the tick equals the
tick truncated at session 1. -/
theorem C4_tick_error_aborts_rest_witness :
    identify_students_E engC4 1 [10] = .error "store read error" ∧
    run_monitor engC4 [(1, [10]), (2, [20])] = run_monitor engC4 [(1, [10])] :=
  ⟨rfl, C4_tick_error_aborts_rest engC4 1 [10] "store read error" [] [(2, [20])] rfl⟩

/-- C9 (amended): starting the engine without its required collaborators
wired does NOT fail — `start` schedules the monitoring job and returns
normally — and every tick of the started engine then detects the missing
collaborators, logs an error, and returns without dispatching anything:
a silent (logged) no-op loop rather than a fatal ConfigurationError. -/
theorem C9_start_unconfigured (e : AdaptiveEngine)
    (h : e.db_session_factory = none ∨ e.question_push_callback = none) :
    (engine_start e).isOk = true ∧
    ∀ e', engine_start e = .ok e' → monitor_engagement e' = [] := by
  obtain ⟨sessions, fac, cb, running⟩ := e
  refine ⟨?_, ?_⟩
  · unfold engine_start
    split <;> rfl
  · intro e' he'
    unfold engine_start at he'
    rcases fac with _ | f
    · split at he' <;> injection he' with hh <;> subst hh <;> rfl
    · rcases cb with _ | c
      · split at he' <;> injection he' with hh <;> subst hh <;> rfl
      · rcases h with h | h <;> simp at h

/-- The engine as built by `AdaptiveEngine.__init__` plus one monitored
session: neither collaborator wired, not yet running. -/
def engineC9 : AdaptiveEngine :=
  { active_sessions := [(1, [2])]
    db_session_factory := none
    question_push_callback := none
    running := false }

/-- Counterexample to C9 as stated: starting the unconfigured engine
succeeds (no ConfigurationError is raised), the started engine's tick runs
as a silent no-op, and the very same session map dispatches (1, [2]) once
the collaborators are wired — so the no-op is due only to the missing
collaborators that `start` accepted. -/
theorem C9_counterexample :
    engine_start engineC9 = .ok { engineC9 with running := true } ∧
    monitor_engagement { engineC9 with running := true } = [] ∧
    monitor_engagement
      { engineC9 with
          db_session_factory := some (engOf [])
          question_push_callback := some ()
          running := true } = [(1, [2])] :=
  ⟨rfl, rfl, rfl⟩

/-- Witness for C9: the unconfigured engine starts successfully and its tick
dispatches nothing. -/
theorem C9_start_unconfigured_witness :
    (engine_start engineC9).isOk = true ∧
    monitor_engagement { engineC9 with running := true } = [] :=
  ⟨(C9_start_unconfigured engineC9 (Or.inl rfl)).1,
   (C9_start_unconfigured engineC9 (Or.inl rfl)).2 { engineC9 with running := true } rfl⟩

/-- Looking a session up after updating every record of its id commutes with
the update, provided the update preserves the id. -/
theorem find_session_map (upd : SessionRecord → SessionRecord)
    (hid : ∀ s, (upd s).id = s.id) (session_id : Nat) :
    ∀ db : List SessionRecord,
      find_session (db.map fun s => if s.id = session_id then upd s else s) session_id
        = (find_session db session_id).map fun s =>
            if s.id = session_id then upd s else s := by
  intro db
  induction db with
  | nil => rfl
  | cons s rest ih =>
    by_cases h : s.id = session_id
    · unfold find_session at ih ⊢
      simp [List.find?_cons, hid, h]
    · unfold find_session at ih ⊢
      simp only [List.map_cons, if_neg h]
      rw [List.find?_cons_of_neg, List.find?_cons_of_neg, ih]
      · simp [h]
      · simp [h]

/-- C6 (amended): `start_session` on an unknown session id fails with
NotFound (Python ValueError); but on a known session it never inspects the
current status: whatever the status is — including ENDED — the call succeeds
and sets the status to ACTIVE, registering the roster with the adaptive
engine. The PENDING→ACTIVE→ENDED ordering is therefore not monotonic:
starting an ENDED session sets it back to ACTIVE instead of failing with
InvalidTransition. -/
theorem C6_start_session (st : ManagerState) (session_id : Nat)
    (student_ids : List Nat) :
    (find_session st.db session_id = none →
       start_session st session_id student_ids =
         .error ("Session " ++ toString session_id ++ " not found")) ∧
    (∀ r, find_session st.db session_id = some r →
       ∃ st', start_session st session_id student_ids = .ok st' ∧
         find_session st'.db session_id = some { r with status := .ACTIVE } ∧
         st'.engine_sessions = add_session st.engine_sessions session_id student_ids) := by
  constructor
  · intro hnone
    unfold start_session
    rw [hnone]
  · intro r hr
    have hr' : st.db.find? (fun s => s.id == session_id) = some r := hr
    have hrid : r.id = session_id := by simpa using List.find?_some hr'
    refine ⟨{ db := st.db.map fun s =>
                if s.id = session_id then { s with status := .ACTIVE } else s
              engine_sessions := add_session st.engine_sessions session_id student_ids },
            ?_, ?_, rfl⟩
    · unfold start_session
      rw [hr]
    · have hmap := find_session_map (fun s => { s with status := .ACTIVE }) (fun _ => rfl)
        session_id st.db
      rw [hmap, hr]
      simp [hrid]

/-- A database holding the single, already-ENDED session 7 (ended at time 5),
with the adaptive engine monitoring nothing. -/
def stEnded : ManagerState :=
  { db := [{ id := 7, instructor_id := 1, status := .ENDED,
             start_time := some 1, end_time := some 5, zoom_meeting_id := none }]
    engine_sessions := [] }

/-- Counterexample to C6 as stated: starting the ENDED session 7 does not
fail with InvalidTransition — it succeeds and the record's status reverses
to ACTIVE. -/
theorem C6_counterexample :
    start_session stEnded 7 [1] =
      .ok { db := [{ id := 7, instructor_id := 1, status := .ACTIVE,
                     start_time := some 1, end_time := some 5, zoom_meeting_id := none }]
            engine_sessions := [(7, [1])] } :=
  rfl

/-- Witness for C6: an unknown id fails, and the known ENDED session 7 is
restarted to ACTIVE. -/
theorem C6_start_session_witness :
    start_session stEnded 99 [] = .error ("Session " ++ toString 99 ++ " not found") ∧
    ∃ st', start_session stEnded 7 [1] = .ok st' ∧
      find_session st'.db 7 =
        some { id := 7, instructor_id := 1, status := .ACTIVE,
               start_time := some 1, end_time := some 5, zoom_meeting_id := none } ∧
      st'.engine_sessions = add_session stEnded.engine_sessions 7 [1] :=
  ⟨(C6_start_session stEnded 99 []).1 (by decide),
   (C6_start_session stEnded 7 [1]).2
     { id := 7, instructor_id := 1, status := .ENDED,
       start_time := some 1, end_time := some 5, zoom_meeting_id := none } (by decide)⟩

/-- C7 (amended): `stop_session` on an unknown session id fails with
NotFound (Python ValueError); `stop_session` on a known session — in
particular one already ENDED — raises no error, keeps/sets the status ENDED
and removes the session from the adaptive engine, but it OVERWRITES the end
timestamp with the current time: the record of an already-ENDED session is
not left unchanged. -/
theorem C7_stop_session (st : ManagerState) (now session_id : Nat) :
    (find_session st.db session_id = none →
       stop_session st now session_id =
         .error ("Session " ++ toString session_id ++ " not found")) ∧
    (∀ r, find_session st.db session_id = some r →
       ∃ st', stop_session st now session_id = .ok st' ∧
         find_session st'.db session_id =
           some { r with status := .ENDED, end_time := some now } ∧
         st'.engine_sessions = remove_session st.engine_sessions session_id) := by
  constructor
  · intro hnone
    unfold stop_session
    rw [hnone]
  · intro r hr
    have hr' : st.db.find? (fun s => s.id == session_id) = some r := hr
    have hrid : r.id = session_id := by simpa using List.find?_some hr'
    refine ⟨{ db := st.db.map fun s =>
                if s.id = session_id then { s with status := .ENDED, end_time := some now }
                else s
              engine_sessions := remove_session st.engine_sessions session_id },
            ?_, ?_, rfl⟩
    · unfold stop_session
      rw [hr]
    · have hmap := find_session_map
        (fun s => { s with status := .ENDED, end_time := some now })
        (fun _ => rfl) session_id st.db
      rw [hmap, hr]
      simp [hrid]

/-- Counterexample to C7 as stated: stopping the already-ENDED session 7
(ended at time 5) at time 9 raises no error but does NOT leave the record
unchanged — the end timestamp becomes 9. -/
theorem C7_counterexample :
    stop_session stEnded 9 7 =
      .ok { db := [{ id := 7, instructor_id := 1, status := .ENDED,
                     start_time := some 1, end_time := some 9, zoom_meeting_id := none }]
            engine_sessions := [] } ∧
    stop_session stEnded 9 7 ≠ .ok stEnded := by
  have h0 : stop_session stEnded 9 7 =
      .ok { db := [{ id := 7, instructor_id := 1, status := .ENDED,
                     start_time := some 1, end_time := some 9, zoom_meeting_id := none }]
            engine_sessions := [] } := rfl
  refine ⟨h0, fun hcontra => ?_⟩
  exact absurd (Except.ok.inj (h0.symm.trans hcontra)) (by decide)

/-- Witness for C7: an unknown id fails, and stopping the ENDED session 7 at
time 9 rewrites its end timestamp to 9. -/
theorem C7_stop_session_witness :
    stop_session stEnded 9 99 = .error ("Session " ++ toString 99 ++ " not found") ∧
    ∃ st', stop_session stEnded 9 7 = .ok st' ∧
      find_session st'.db 7 =
        some { id := 7, instructor_id := 1, status := .ENDED,
               start_time := some 1, end_time := some 9, zoom_meeting_id := none } ∧
      st'.engine_sessions = remove_session stEnded.engine_sessions 7 :=
  ⟨(C7_stop_session stEnded 9 99).1 (by decide),
   (C7_stop_session stEnded 9 7).2
     { id := 7, instructor_id := 1, status := .ENDED,
       start_time := some 1, end_time := some 5, zoom_meeting_id := none } (by decide)⟩

/-- C5 (amended): the instructor-side registry fans out to every channel of
the owner, each channel's send wrapped in its own try/except — the outcome
on a channel is `(ws, !fails ws)`, independent of the failures of the other
channels, and no send raises. The student-side registry instead attempts
delivery on AT MOST ONE channel (the first channel of the student, in
registration order, present in the session's set): a second channel of the
same owner is not attempted, though a failure on the attempted channel is
likewise caught and does not change which channel is attempted. -/
theorem C5_send_fanout :
    (∀ (m : InstructorWSManager) (instructor_id : Nat) (fails : Nat → Bool)
       (conns : List Nat),
       alist_lookup m.active_connections instructor_id = some conns →
         send_dashboard_update m instructor_id fails =
           conns.map fun ws => (ws, !fails ws)) ∧
    (∀ (m : StudentWSManager) (session_id student_id : Nat) (fails fails' : Nat → Bool),
       (send_question_to_student m session_id student_id fails).length ≤ 1 ∧
       (send_question_to_student m session_id student_id fails).map Prod.fst =
         (send_question_to_student m session_id student_id fails').map Prod.fst) := by
  constructor
  · intro m iid fails conns h
    unfold send_dashboard_update
    rw [h]
  · intro m sid stid fails fails'
    cases hc : alist_lookup m.active_connections sid with
    | none => simp [send_question_to_student, hc]
    | some conns =>
      cases hf : m.student_sessions.find? (fun p => p.2 == stid && conns.contains p.1) with
      | none =>
        simp only [send_question_to_student, hc, hf]
        simp
      | some q =>
        simp only [send_question_to_student, hc, hf]
        simp

/-- Student 5 holds two channels, 1 and 2, in session 42. -/
def mC5 : StudentWSManager :=
  { active_connections := [(42, [1, 2])], student_sessions := [(1, 5), (2, 5)] }

/-- Counterexample to C5 as stated: a send to student 5, who holds the two
channels 1 and 2, attempts only channel 1 — even when nothing fails — and
when channel 1's send fails, channel 2 is still not attempted, so nothing at
all is delivered to an owner with a second live channel. -/
theorem C5_counterexample :
    send_question_to_student mC5 42 5 (fun _ => false) = [(1, true)] ∧
    send_question_to_student mC5 42 5 (fun ws => ws == 1) = [(1, false)] :=
  ⟨rfl, rfl⟩

/-- Instructor 3 holds two channels, 1 and 2. -/
def mC5i : InstructorWSManager :=
  { active_connections := [(3, [1, 2])], instructor_sessions := [(1, 3), (2, 3)] }

/-- Witness for C5: instructor 3's dashboard send with channel 1 failing
still attempts channel 2 and delivers there; a student-side send makes at
most one attempt. -/
theorem C5_send_fanout_witness :
    send_dashboard_update mC5i 3 (fun ws => ws == 1) = [(1, false), (2, true)] ∧
    (send_question_to_student mC5 42 5 (fun _ => false)).length ≤ 1 :=
  ⟨C5_send_fanout.1 mC5i 3 (fun ws => ws == 1) [1, 2] rfl,
   (C5_send_fanout.2 mC5 42 5 (fun _ => false) (fun _ => false)).1⟩

/-- A key lookup fails exactly when the key is absent. -/
theorem alist_lookup_eq_none {α : Type} (key : Nat) :
    ∀ l : List (Nat × α), alist_lookup l key = none ↔ key ∉ l.map Prod.fst := by
  intro l
  induction l with
  | nil => simp [alist_lookup]
  | cons p rest ih =>
    obtain ⟨k, v⟩ := p
    by_cases h : k = key
    · subst h
      simp [alist_lookup]
    · simp [alist_lookup, h, ih, Ne.symm h]

/-- Erasing an absent key is the identity. -/
theorem alist_erase_of_lookup_none {α : Type} (key : Nat) :
    ∀ l : List (Nat × α), alist_lookup l key = none → alist_erase l key = l := by
  intro l
  induction l with
  | nil => intro _; rfl
  | cons p rest ih =>
    intro hl
    obtain ⟨k, v⟩ := p
    by_cases h : k = key
    · subst h
      simp [alist_lookup] at hl
    · simp only [alist_lookup, beq_iff_eq, if_neg h] at hl
      simp [alist_erase, h, ih hl]

/-- Removing a channel contained in no session set is the identity. -/
theorem remove_from_first_set_of_not_mem (ws : Nat) :
    ∀ ac : List (Nat × List Nat), (∀ p ∈ ac, ws ∉ p.2) →
      remove_from_first_set ws ac = ac := by
  intro ac
  induction ac with
  | nil => intro _; rfl
  | cons q rest ih =>
    intro h
    obtain ⟨sid, conns⟩ := q
    have h0 : ws ∉ conns := h (sid, conns) (List.mem_cons_self _ _)
    simp [remove_from_first_set, h0, ih fun q hq => h q (List.mem_cons_of_mem _ hq)]

/-- After disconnecting a channel that sat in at most one duplicate-free
session set, the channel sits in no session set. -/
theorem remove_from_first_set_removes (ws : Nat) :
    ∀ ac : List (Nat × List Nat),
      (∀ p ∈ ac, p.2.Nodup) →
      (ac.filter fun p => decide (ws ∈ p.2)).length ≤ 1 →
      ∀ p ∈ remove_from_first_set ws ac, ws ∉ p.2 := by
  intro ac
  induction ac with
  | nil =>
    intro _ _ p hp
    cases hp
  | cons q rest ih =>
    intro hnd hcount p hp
    obtain ⟨sid, conns⟩ := q
    by_cases hm : ws ∈ conns
    · simp only [remove_from_first_set, if_pos hm] at hp
      rcases List.mem_cons.mp hp with rfl | hp'
      · exact (hnd (sid, conns) (List.mem_cons_self _ _)).not_mem_erase
      · have hcons : ((sid, conns) :: rest).filter (fun p => decide (ws ∈ p.2)) =
            (sid, conns) :: rest.filter (fun p => decide (ws ∈ p.2)) := by
          simp [List.filter_cons, hm]
        rw [hcons, List.length_cons] at hcount
        have h0 : (rest.filter fun p => decide (ws ∈ p.2)).length = 0 := by omega
        have hnil := List.length_eq_zero.mp h0
        rw [List.filter_eq_nil_iff] at hnil
        simpa using hnil p hp'
    · simp only [remove_from_first_set, if_neg hm] at hp
      rcases List.mem_cons.mp hp with rfl | hp'
      · exact hm
      · refine ih (fun q hq => hnd q (List.mem_cons_of_mem _ hq)) ?_ p hp'
        have hcons : ((sid, conns) :: rest).filter (fun p => decide (ws ∈ p.2)) =
            rest.filter (fun p => decide (ws ∈ p.2)) := by
          simp [List.filter_cons, hm]
        rw [hcons] at hcount
        exact hcount

/-- A disconnect of a channel absent from the student-side maps is a no-op. -/
theorem student_disconnect_noop (m : StudentWSManager) (ws : Nat)
    (h1 : ∀ p ∈ m.active_connections, ws ∉ p.2)
    (h2 : alist_lookup m.student_sessions ws = none) :
    student_disconnect m ws = m := by
  unfold student_disconnect
  rw [remove_from_first_set_of_not_mem ws _ h1, alist_erase_of_lookup_none ws _ h2]

/-- A disconnect of a channel absent from the channel→instructor map returns
normally and changes nothing. -/
theorem instructor_disconnect_noop (m : InstructorWSManager) (ws : Nat)
    (h : alist_lookup m.instructor_sessions ws = none) :
    instructor_disconnect m ws = .ok m := by
  simp only [instructor_disconnect, h]
  rw [alist_erase_of_lookup_none ws _ h]

/-- Whenever `disconnect` returns normally, the channel has been deleted
from the channel→instructor map. -/
theorem instructor_disconnect_sessions (m m' : InstructorWSManager) (ws : Nat)
    (h : instructor_disconnect m ws = .ok m') :
    m'.instructor_sessions = alist_erase m.instructor_sessions ws := by
  unfold instructor_disconnect at h
  rcases hl : alist_lookup m.instructor_sessions ws with _ | iid <;> simp only [hl] at h
  · injection h with h
    subst h
    rfl
  · split at h
    · split at h
      · split at h
        · injection h with h
          subst h
          rfl
        · simp at h
      · injection h with h
        subst h
        rfl
    · injection h with h
      subst h
      rfl

/-- C8: for either registry, disconnecting a channel that was never
registered is a no-op — no exception, no state change — and a second
disconnect right after a first one returns normally and changes nothing,
in every state where the maps are dict-like (unique keys, duplicate-free
connection sets) and the channel sits in at most one session's set, as any
channel registered by a single connect does. -/
theorem C8_disconnect_idempotent :
    (∀ (m : StudentWSManager) (ws : Nat),
       (∀ p ∈ m.active_connections, p.2.Nodup) →
       (m.active_connections.filter fun p => decide (ws ∈ p.2)).length ≤ 1 →
       (m.student_sessions.map Prod.fst).Nodup →
         student_disconnect (student_disconnect m ws) ws = student_disconnect m ws) ∧
    (∀ (m : StudentWSManager) (ws : Nat),
       (∀ p ∈ m.active_connections, ws ∉ p.2) →
       alist_lookup m.student_sessions ws = none →
         student_disconnect m ws = m) ∧
    (∀ (m m' : InstructorWSManager) (ws : Nat),
       (m.instructor_sessions.map Prod.fst).Nodup →
       instructor_disconnect m ws = .ok m' →
         instructor_disconnect m' ws = .ok m') ∧
    (∀ (m : InstructorWSManager) (ws : Nat),
       alist_lookup m.instructor_sessions ws = none →
         instructor_disconnect m ws = .ok m) := by
  refine ⟨?_, ?_, ?_, ?_⟩
  · intro m ws hnd hcount hkeys
    have hsets : ∀ p ∈ (student_disconnect m ws).active_connections, ws ∉ p.2 :=
      remove_from_first_set_removes ws m.active_connections hnd hcount
    have hlook : alist_lookup (student_disconnect m ws).student_sessions ws = none := by
      rw [show (student_disconnect m ws).student_sessions =
            alist_erase m.student_sessions ws from rfl]
      rw [alist_lookup_eq_none]
      exact alist_erase_key_not_mem ws m.student_sessions hkeys
    exact student_disconnect_noop (student_disconnect m ws) ws hsets hlook
  · exact fun m ws h1 h2 => student_disconnect_noop m ws h1 h2
  · intro m m' ws hkeys hok
    have hs := instructor_disconnect_sessions m m' ws hok
    have hn : alist_lookup m'.instructor_sessions ws = none := by
      rw [hs, alist_lookup_eq_none]
      exact alist_erase_key_not_mem ws m.instructor_sessions hkeys
    exact instructor_disconnect_noop m' ws hn
  · exact fun m ws h => instructor_disconnect_noop m ws h

/-- Witness for C8: the four disconnect no-op facts at concrete registries. -/
theorem C8_disconnect_idempotent_witness :
    student_disconnect (student_disconnect ⟨[(42, [1])], [(1, 5)]⟩ 1) 1 =
      student_disconnect ⟨[(42, [1])], [(1, 5)]⟩ 1 ∧
    student_disconnect ⟨[(42, [1])], [(1, 5)]⟩ 9 = ⟨[(42, [1])], [(1, 5)]⟩ ∧
    instructor_disconnect ⟨[(3, [])], []⟩ 1 = .ok ⟨[(3, [])], []⟩ ∧
    instructor_disconnect ⟨[(3, [1])], [(1, 3)]⟩ 9 = .ok ⟨[(3, [1])], [(1, 3)]⟩ :=
  ⟨C8_disconnect_idempotent.1 ⟨[(42, [1])], [(1, 5)]⟩ 1 (by decide) (by decide) (by decide),
   C8_disconnect_idempotent.2.1 ⟨[(42, [1])], [(1, 5)]⟩ 9 (by decide) (by decide),
   C8_disconnect_idempotent.2.2.1 ⟨[(3, [1])], [(1, 3)]⟩ ⟨[(3, [])], []⟩ 1 (by decide) rfl,
   C8_disconnect_idempotent.2.2.2 ⟨[(3, [1])], [(1, 3)]⟩ 9 (by decide)⟩

/-- C10: evaluation of the instructor registry at the failing input.
Registering a channel under instructor id 0 and then disconnecting it
leaves the channel inside owner 0's fan-out set — the `if instructor_id`
truthiness test treats id 0 like None and skips the set removal while still
deleting the channel→owner entry — so a later dashboard send still attempts
delivery on the disconnected channel. For a non-zero owner id the same
connect/disconnect sequence removes the channel and nothing is attempted. -/
theorem C10_owner_zero_disconnect_bug :
    instructor_disconnect (instructor_connect ⟨[], []⟩ 7 0) 7 =
      .ok ⟨[(0, [7])], []⟩ ∧
    send_dashboard_update ⟨[(0, [7])], []⟩ 0 (fun _ => false) = [(7, true)] ∧
    instructor_disconnect (instructor_connect ⟨[], []⟩ 7 1) 7 =
      .ok ⟨[(1, [])], []⟩ ∧
    send_dashboard_update ⟨[(1, [])], []⟩ 1 (fun _ => false) = [] :=
  ⟨rfl, rfl, rfl, rfl⟩

end Engagement
